import Mathlib

/-
Verification of the SpeedReader native boundary layer.

Two components are embedded:

1. The CPU topology selector
   (src/src/Native/CpuInfo/speedreader_cpuinfo/speedreader_cpuinfo.c,
   header src/src/Native/speedreader_cpuinfo/speedreader_cpuinfo.h).
   The hardware topology library (cpuinfo) is an external collaborator and
   is modelled as an explicit `Topology` value; the C `qsort` call is
   modelled by its C-standard contract (a permutation ordered by the
   comparator, with no stability guarantee), hence the whole operation is a
   relation between inputs and allowed outcomes.

2. The ONNX Runtime wrapper.  The repository carries two revisions:
   - the exact-match/two-status revision, whose implementation is in
     src/native/speedreader_ort.c (matching the header
     src/Src/Native/speedreader_ort/speedreader_ort.h); it is embedded
     below with the ONNX Runtime API modelled as an oracle of per-call
     responses;
   - the capacity/length buffer ("Truncated") revision, declared in
     src/native/speedreader_ort.h and exercised by src/native/smoke_test.c,
     whose .c implementation is not in the tree; it is modelled from the
     specification (see the doc comments marked "Modelled from the spec").
-/

namespace SpeedReaderCpuInfo

/-- One logical processor as reported by the topology library:
`smt_id` is the intra-core thread index, `linux_id` the OS CPU id
(int32 in the source), `core_frequency` is `proc->core->frequency`
when `proc->core` is non-NULL, `none` when it is NULL. -/
structure CpuProcessor where
  smt_id : Nat
  linux_id : Int
  core_frequency : Option Nat
deriving DecidableEq

/-- One L2 cache domain: `processor_start` and `processor_count` delimit the
member logical processors in the library's global enumeration. -/
structure L2Cache where
  processor_start : Nat
  processor_count : Nat
deriving DecidableEq

/-- The topology exposed by the cpuinfo library: `l2_caches` models
`cpuinfo_get_l2_cache i` for each `i < cpuinfo_get_l2_caches_count()`
(`none` = the call returned NULL), `processors` models
`cpuinfo_get_processor idx` (out of range or `none` entry = NULL). -/
structure Topology where
  l2_caches : List (Option L2Cache)
  processors : List (Option CpuProcessor)
deriving DecidableEq

/-- The transient `CpuCandidate` record of speedreader_cpuinfo.c. -/
structure CpuCandidate where
  linux_id : Int
  frequency : Nat
deriving DecidableEq

/-- Constant `SPEEDREADER_CPUINFO_MAX_CPUS`. -/
def SPEEDREADER_CPUINFO_MAX_CPUS : Nat := 256

/-- Function `write_error` in speedreader_cpuinfo.c: writes the message truncated to
`SPEEDREADER_CPUINFO_ERROR_BUF_SIZE - 1 = 255` characters plus a NUL into the
caller's error buffer; a NULL error pointer is a no-op.  The first component
models the buffer contents after the call (`none` = no buffer supplied). -/
def write_error (errPresent : Bool) (msg : String) : Option String :=
  if errPresent then some (msg.take 255) else none

/-- Comparator `compare_by_frequency_desc` in speedreader_cpuinfo.c: returns 1 when the
second candidate's frequency is larger, -1 when smaller, 0 on ties. -/
def compare_by_frequency_desc (a b : CpuCandidate) : Int :=
  if a.frequency < b.frequency then 1
  else if b.frequency < a.frequency then -1
  else 0

/-- The C-standard contract of `qsort` with `compare_by_frequency_desc`:
the output is a permutation of the input ordered so that no later element
compares below an earlier one.  The standard leaves the relative order of
equal-comparing elements unspecified, so this is a relation, not a
function. -/
def QsortSpec (input output : List CpuCandidate) : Prop :=
  output.Perm input ∧
  output.Pairwise (fun a b => compare_by_frequency_desc a b ≤ 0)

/-- The inner loop of `speedreader_cpuinfo_get_optimal_cpus` (lines 96-109):
scan `processor_count` processors starting at global index `start`, skip NULL
processors, and take the first whose `smt_id` is 0, recording its `linux_id`
and its core's frequency (0 when `core` is NULL). -/
def findPrimary (t : Topology) (start : Nat) : Nat → Option CpuCandidate
  | 0 => none
  | n + 1 =>
    match t.processors.getD start none with
    | none => findPrimary t (start + 1) n
    | some proc =>
      if proc.smt_id = 0 then
        some ⟨proc.linux_id, proc.core_frequency.getD 0⟩
      else
        findPrimary t (start + 1) n

/-- Domain contribution: the candidate a (possibly NULL) L2 domain yields —
`continue` on a NULL domain, otherwise the inner scan. -/
def domainCandidate (t : Topology) (oc : Option L2Cache) : Option CpuCandidate :=
  oc.bind (fun l2 => findPrimary t l2.processor_start l2.processor_count)

/-- The outer loop of `speedreader_cpuinfo_get_optimal_cpus` (lines 89-110):
walk the L2 cache domains in order while fewer than
`SPEEDREADER_CPUINFO_MAX_CPUS` candidates have been collected, skipping NULL
domains and domains without a primary (smt_id 0) thread, appending one
candidate per remaining domain. -/
def collectLoop (t : Topology) : List (Option L2Cache) → List CpuCandidate → List CpuCandidate
  | [], acc => acc
  | oc :: rest, acc =>
    if SPEEDREADER_CPUINFO_MAX_CPUS ≤ acc.length then acc
    else
      match domainCandidate t oc with
      | none => collectLoop t rest acc
      | some c => collectLoop t rest (acc ++ [c])

/-- The candidate list collected by `speedreader_cpuinfo_get_optimal_cpus`
before sorting. -/
def collectCandidates (t : Topology) : List CpuCandidate :=
  collectLoop t t.l2_caches []

/-- Status codes of speedreader_cpuinfo.h (`SPEEDREADER_CPUINFO_OK`,
`SPEEDREADER_CPUINFO_ERROR`; the spec calls the latter TopologyError). -/
inductive CpuInfoStatus where
  | ok
  | error
deriving DecidableEq

/-- Contents of the caller's `SpeedReaderOptimalCpus` struct after the call:
`count` and the written prefix of `cpu_indices`. -/
structure CpuResult where
  count : Nat
  ids : List Int
deriving DecidableEq

/-- Observable outcome of one `speedreader_cpuinfo_get_optimal_cpus` call:
the returned status, the result struct (`none` when the caller passed a NULL
result pointer) and the error buffer contents (`none` when the caller passed
a NULL error pointer). -/
structure CpuOutcome where
  status : CpuInfoStatus
  result : Option CpuResult
  err : Option String
deriving DecidableEq

/-- Operation `speedreader_cpuinfo_get_optimal_cpus` as a relation between the
topology, whether `cpuinfo_initialize` succeeds, presence of the `result`
and `error` pointers, and the allowed outcomes.  It is a relation only
because of the `qsort` call; every other step is deterministic and follows
the source line by line. -/
inductive speedreader_cpuinfo_get_optimal_cpus (t : Topology) :
    Bool → Bool → Bool → CpuOutcome → Prop where
  | nullResult (initOk ep : Bool) :
      speedreader_cpuinfo_get_optimal_cpus t initOk false ep
        ⟨.error, none, write_error ep "result parameter is NULL"⟩
  | initFail (ep : Bool) :
      speedreader_cpuinfo_get_optimal_cpus t false true ep
        ⟨.error, some ⟨0, []⟩, write_error ep "cpuinfo_initialize failed"⟩
  | noL2 (ep : Bool) (h : t.l2_caches.length = 0) :
      speedreader_cpuinfo_get_optimal_cpus t true true ep
        ⟨.error, some ⟨0, []⟩, write_error ep "no L2 caches found"⟩
  | noCandidates (ep : Bool) (h : t.l2_caches.length ≠ 0)
      (hc : collectCandidates t = []) :
      speedreader_cpuinfo_get_optimal_cpus t true true ep
        ⟨.error, some ⟨0, []⟩, write_error ep "no suitable CPUs found"⟩
  | success (ep : Bool) (sorted : List CpuCandidate)
      (h : t.l2_caches.length ≠ 0) (hc : collectCandidates t ≠ [])
      (hq : QsortSpec (collectCandidates t) sorted) :
      speedreader_cpuinfo_get_optimal_cpus t true true ep
        ⟨.ok, some ⟨sorted.length, sorted.map CpuCandidate.linux_id⟩,
          write_error ep ""⟩

/-- The sort the specification describes (§4.4 step 5): a stable sort by
frequency descending, equal-frequency candidates retaining discovery order.
Written from the spec's words, for comparison with the code's `qsort`
contract. -/
def insertFreqDesc (c : CpuCandidate) : List CpuCandidate → List CpuCandidate
  | [] => [c]
  | d :: ds =>
    if c.frequency < d.frequency then d :: insertFreqDesc c ds
    else c :: d :: ds

/-- Stable descending-by-frequency sort (spec §4.4 step 5), by insertion. -/
def stableSortDesc : List CpuCandidate → List CpuCandidate
  | [] => []
  | c :: cs => insertFreqDesc c (stableSortDesc cs)

theorem collectLoop_eq (t : Topology) :
    ∀ (l : List (Option L2Cache)) (acc : List CpuCandidate),
      acc.length ≤ SPEEDREADER_CPUINFO_MAX_CPUS →
      collectLoop t l acc =
        acc ++ (l.filterMap (domainCandidate t)).take
          (SPEEDREADER_CPUINFO_MAX_CPUS - acc.length) := by
  intro l
  induction l with
  | nil => intro acc _; simp [collectLoop]
  | cons oc rest ih =>
    intro acc hacc
    by_cases hfull : SPEEDREADER_CPUINFO_MAX_CPUS ≤ acc.length
    · have hlen : SPEEDREADER_CPUINFO_MAX_CPUS - acc.length = 0 := by omega
      simp [collectLoop, hfull, hlen]
    · have hlt : acc.length < SPEEDREADER_CPUINFO_MAX_CPUS := by omega
      cases hdc : domainCandidate t oc with
      | none =>
        rw [List.filterMap_cons_none hdc]
        simp only [collectLoop, if_neg hfull, hdc]
        exact ih acc hacc
      | some c =>
        have hacc1 : (acc ++ [c]).length ≤ SPEEDREADER_CPUINFO_MAX_CPUS := by
          simp; omega
        have hsub : SPEEDREADER_CPUINFO_MAX_CPUS - acc.length =
            (SPEEDREADER_CPUINFO_MAX_CPUS - (acc.length + 1)) + 1 := by omega
        rw [List.filterMap_cons_some hdc]
        simp only [collectLoop, if_neg hfull, hdc]
        rw [ih (acc ++ [c]) hacc1, hsub, List.take_succ_cons]
        simp

theorem collectCandidates_eq (t : Topology) :
    collectCandidates t =
      (t.l2_caches.filterMap (domainCandidate t)).take
        SPEEDREADER_CPUINFO_MAX_CPUS := by
  unfold collectCandidates
  rw [collectLoop_eq t t.l2_caches [] (by simp)]
  simp

theorem collectCandidates_length_le (t : Topology) :
    (collectCandidates t).length ≤ SPEEDREADER_CPUINFO_MAX_CPUS := by
  rw [collectCandidates_eq, List.length_take]
  exact Nat.min_le_left _ _

/-- A candidate produced by the inner scan comes from a processor whose
`smt_id` is 0, at an index that is the first primary one in the scan. -/
theorem findPrimary_eq_some (t : Topology) :
    ∀ (n start : Nat) (c : CpuCandidate),
      findPrimary t start n = some c →
      ∃ p, p < n ∧ ∃ proc,
        t.processors.getD (start + p) none = some proc ∧
        proc.smt_id = 0 ∧
        c = ⟨proc.linux_id, proc.core_frequency.getD 0⟩ ∧
        ∀ q, q < p → ∀ proc2,
          t.processors.getD (start + q) none = some proc2 → proc2.smt_id ≠ 0 := by
  intro n
  induction n with
  | zero => intro start c h; simp [findPrimary] at h
  | succ m ih =>
    intro start c h
    unfold findPrimary at h
    cases hp : t.processors.getD start none with
    | none =>
      simp only [hp] at h
      obtain ⟨p, hpm, proc, hproc, hsmt, hc, hfirst⟩ := ih (start + 1) c h
      refine ⟨p + 1, by omega, proc, ?_, hsmt, hc, ?_⟩
      · have : start + 1 + p = start + (p + 1) := by omega
        rwa [this] at hproc
      · intro q hq proc2 hq2
        cases q with
        | zero =>
          simp only [Nat.add_zero] at hq2
          rw [hp] at hq2
          cases hq2
        | succ q' =>
          have hlt : q' < p := by omega
          have : start + (q' + 1) = start + 1 + q' := by omega
          rw [this] at hq2
          exact hfirst q' hlt proc2 hq2
    | some proc =>
      simp only [hp] at h
      by_cases hsmt : proc.smt_id = 0
      · rw [if_pos hsmt] at h
        refine ⟨0, by omega, proc, by simpa using hp, hsmt, by
          cases h; rfl, by intro q hq; omega⟩
      · rw [if_neg hsmt] at h
        obtain ⟨p, hpm, proc', hproc, hsmt', hc, hfirst⟩ := ih (start + 1) c h
        refine ⟨p + 1, by omega, proc', ?_, hsmt', hc, ?_⟩
        · have : start + 1 + p = start + (p + 1) := by omega
          rwa [this] at hproc
        · intro q hq proc2 hq2
          cases q with
          | zero =>
            simp only [Nat.add_zero] at hq2
            rw [hp] at hq2
            cases hq2
            exact hsmt
          | succ q' =>
            have hlt : q' < p := by omega
            have : start + (q' + 1) = start + 1 + q' := by omega
            rw [this] at hq2
            exact hfirst q' hlt proc2 hq2

/-- A domain none of whose (present) processors is a primary thread yields
no candidate. -/
theorem findPrimary_eq_none (t : Topology) :
    ∀ (n start : Nat),
      (∀ p, p < n → ∀ proc,
        t.processors.getD (start + p) none = some proc → proc.smt_id ≠ 0) →
      findPrimary t start n = none := by
  intro n
  induction n with
  | zero => intro start _; simp [findPrimary]
  | succ m ih =>
    intro start hall
    unfold findPrimary
    cases hp : t.processors.getD start none with
    | none =>
      apply ih
      intro p hpm proc hproc
      have : start + 1 + p = start + (p + 1) := by omega
      rw [this] at hproc
      exact hall (p + 1) (by omega) proc hproc
    | some proc =>
      have hne : proc.smt_id ≠ 0 := hall 0 (by omega) proc (by simpa using hp)
      dsimp only
      rw [if_neg hne]
      apply ih
      intro p hpm proc2 hproc
      have : start + 1 + p = start + (p + 1) := by omega
      rw [this] at hproc
      exact hall (p + 1) (by omega) proc2 hproc

/-- Every collected candidate records a primary (smt_id 0) processor. -/
theorem collectCandidates_primary (t : Topology) (c : CpuCandidate)
    (hc : c ∈ collectCandidates t) :
    ∃ i proc, t.processors.getD i none = some proc ∧
      proc.smt_id = 0 ∧ proc.linux_id = c.linux_id := by
  rw [collectCandidates_eq] at hc
  have hc' := List.take_subset _ _ hc
  obtain ⟨oc, _, hoc⟩ := List.mem_filterMap.mp hc'
  cases oc with
  | none => simp [domainCandidate] at hoc
  | some l2 =>
    simp only [domainCandidate, Option.bind_some] at hoc
    obtain ⟨p, _, proc, hproc, hsmt, hceq, _⟩ := findPrimary_eq_some t _ _ c hoc
    exact ⟨l2.processor_start + p, proc, hproc, hsmt, by rw [hceq]⟩

theorem compare_le_zero_imp (a b : CpuCandidate)
    (h : compare_by_frequency_desc a b ≤ 0) : b.frequency ≤ a.frequency := by
  unfold compare_by_frequency_desc at h
  by_cases h1 : a.frequency < b.frequency
  · rw [if_pos h1] at h; omega
  · omega

/-- A synthetic two-domain topology: two single-processor L2 domains, both
processors primary (smt_id 0) with equal core frequency 100, Linux ids 10
and 11, discovered in that order. -/
def tEx : Topology :=
  ⟨[some ⟨0, 1⟩, some ⟨1, 1⟩],
   [some ⟨0, 10, some 100⟩, some ⟨0, 11, some 100⟩]⟩

/-- A qsort output for `tEx` that reverses the equal-frequency tie. -/
def sortedEx : List CpuCandidate := [⟨11, 100⟩, ⟨10, 100⟩]

/-- The corresponding allowed call outcome for `tEx`. -/
def oEx : CpuOutcome := ⟨.ok, some ⟨2, [11, 10]⟩, write_error true ""⟩

/-- An empty topology (zero L2 cache domains). -/
def tEmpty : Topology := ⟨[], []⟩

/-- Outcome of the selector on `tEmpty`. -/
def oEmpty : CpuOutcome :=
  ⟨.error, some ⟨0, []⟩, write_error true "no L2 caches found"⟩

/-- C2 counterexample: on a topology with two equal-frequency candidates
discovered as ids [10, 11], the implementation's `qsort` (which the C
standard allows to reorder equal-comparing elements arbitrarily) may return
[11, 10], which differs from the stable (discovery-order-preserving)
frequency-descending sort the claim demands.  So the claim, as stated, is
false of the code. -/
theorem claim_C2_counterexample :
    speedreader_cpuinfo_get_optimal_cpus tEx true true true oEx ∧
    oEx.status = .ok ∧
    oEx.result ≠ some ⟨(stableSortDesc (collectCandidates tEx)).length,
      (stableSortDesc (collectCandidates tEx)).map CpuCandidate.linux_id⟩ := by
  refine ⟨?_, rfl, by decide⟩
  exact .success true sortedEx (by decide) (by decide) ⟨by decide, by decide⟩

/-- C2 (amended): every successful outcome of the selector is a permutation
of the collected candidates ordered so that a higher-frequency candidate
always precedes a lower-frequency one; the relative order of
equal-frequency candidates is unspecified (qsort gives no stability
guarantee). -/
theorem claim_C2 :
    ∀ (t : Topology) (ep : Bool) (o : CpuOutcome),
      speedreader_cpuinfo_get_optimal_cpus t true true ep o →
      o.status = .ok →
      ∃ cands : List CpuCandidate,
        cands.Perm (collectCandidates t) ∧
        cands.Pairwise (fun a b => b.frequency ≤ a.frequency) ∧
        o.result = some ⟨cands.length, cands.map CpuCandidate.linux_id⟩ := by
  intro t ep o h hok
  cases h with
  | noL2 ep h => simp at hok
  | noCandidates ep h hc => simp at hok
  | success ep sorted h hc hq =>
    exact ⟨sorted, hq.1, hq.2.imp (fun hab => compare_le_zero_imp _ _ hab), rfl⟩

/-- C2 witness: the amended theorem applied to the concrete topology
`tEx` and the concrete allowed outcome `oEx`. -/
theorem claim_C2_witness :
    ∃ cands : List CpuCandidate,
      cands.Perm (collectCandidates tEx) ∧
      cands.Pairwise (fun a b => b.frequency ≤ a.frequency) ∧
      oEx.result = some ⟨cands.length, cands.map CpuCandidate.linux_id⟩ :=
  claim_C2 tEx true oEx
    (.success true sortedEx (by decide) (by decide) ⟨by decide, by decide⟩) rfl

/-- C3: on any topology, the selector keeps at most one candidate per L2
domain — the first primary (smt_id 0) processor of the domain in
enumeration order — skipping domains with no primary thread; every
returned id is the id of a primary processor, and the returned list has at
most 256 entries. -/
theorem claim_C3 :
    ∀ (t : Topology) (ep : Bool) (o : CpuOutcome),
      speedreader_cpuinfo_get_optimal_cpus t true true ep o →
      o.status = .ok →
      ∃ r, o.result = some r ∧
        r.ids.length ≤ 256 ∧
        collectCandidates t = (t.l2_caches.filterMap (domainCandidate t)).take 256 ∧
        (∀ id ∈ r.ids, ∃ i proc, t.processors.getD i none = some proc ∧
          proc.smt_id = 0 ∧ proc.linux_id = id) ∧
        (∀ l2 : L2Cache,
          (∀ p, p < l2.processor_count → ∀ proc,
            t.processors.getD (l2.processor_start + p) none = some proc →
            proc.smt_id ≠ 0) →
          findPrimary t l2.processor_start l2.processor_count = none) ∧
        (∀ (l2 : L2Cache) (c : CpuCandidate),
          findPrimary t l2.processor_start l2.processor_count = some c →
          ∃ p, p < l2.processor_count ∧ ∃ proc,
            t.processors.getD (l2.processor_start + p) none = some proc ∧
            proc.smt_id = 0 ∧
            c = ⟨proc.linux_id, proc.core_frequency.getD 0⟩ ∧
            ∀ q, q < p → ∀ proc2,
              t.processors.getD (l2.processor_start + q) none = some proc2 →
              proc2.smt_id ≠ 0) := by
  intro t ep o h hok
  cases h with
  | noL2 ep h => simp at hok
  | noCandidates ep h hc => simp at hok
  | success ep sorted h hc hq =>
    refine ⟨⟨sorted.length, sorted.map CpuCandidate.linux_id⟩, rfl, ?_, ?_, ?_, ?_, ?_⟩
    · have hlen : sorted.length = (collectCandidates t).length := hq.1.length_eq
      have hle := collectCandidates_length_le t
      have h256 : SPEEDREADER_CPUINFO_MAX_CPUS = 256 := rfl
      simp only [List.length_map]
      omega
    · exact collectCandidates_eq t
    · intro id hid
      obtain ⟨c, hcmem, hcid⟩ := List.mem_map.mp hid
      have : c ∈ collectCandidates t := hq.1.mem_iff.mp hcmem
      obtain ⟨i, proc, hproc, hsmt, hlid⟩ := collectCandidates_primary t c this
      exact ⟨i, proc, hproc, hsmt, by rw [hlid, hcid]⟩
    · intro l2 hall
      exact findPrimary_eq_none t l2.processor_count l2.processor_start hall
    · intro l2 c hfp
      exact findPrimary_eq_some t l2.processor_count l2.processor_start c hfp

/-- C3 witness: the theorem applied to the concrete topology `tEx` and the
concrete allowed outcome `oEx`. -/
theorem claim_C3_witness :
    ∃ r, oEx.result = some r ∧
      r.ids.length ≤ 256 ∧
      collectCandidates tEx =
        (tEx.l2_caches.filterMap (domainCandidate tEx)).take 256 ∧
      (∀ id ∈ r.ids, ∃ i proc, tEx.processors.getD i none = some proc ∧
        proc.smt_id = 0 ∧ proc.linux_id = id) ∧
      (∀ l2 : L2Cache,
        (∀ p, p < l2.processor_count → ∀ proc,
          tEx.processors.getD (l2.processor_start + p) none = some proc →
          proc.smt_id ≠ 0) →
        findPrimary tEx l2.processor_start l2.processor_count = none) ∧
      (∀ (l2 : L2Cache) (c : CpuCandidate),
        findPrimary tEx l2.processor_start l2.processor_count = some c →
        ∃ p, p < l2.processor_count ∧ ∃ proc,
          tEx.processors.getD (l2.processor_start + p) none = some proc ∧
          proc.smt_id = 0 ∧
          c = ⟨proc.linux_id, proc.core_frequency.getD 0⟩ ∧
          ∀ q, q < p → ∀ proc2,
            tEx.processors.getD (l2.processor_start + q) none = some proc2 →
            proc2.smt_id ≠ 0) :=
  claim_C3 tEx true oEx
    (.success true sortedEx (by decide) (by decide) ⟨by decide, by decide⟩) rfl

/-- C8: topology selection failure is all-or-nothing.  Whenever the call
returns the error status the result struct (when present) holds count 0 and
no ids; zero L2 domains and zero candidates after filtering each force the
error status. -/
theorem claim_C8 :
    ∀ (t : Topology) (initOk rp ep : Bool) (o : CpuOutcome),
      speedreader_cpuinfo_get_optimal_cpus t initOk rp ep o →
      (o.status = .error → ∀ r, o.result = some r → r.count = 0 ∧ r.ids = []) ∧
      (initOk = true → rp = true → t.l2_caches.length = 0 → o.status = .error) ∧
      (initOk = true → rp = true → collectCandidates t = [] → o.status = .error) := by
  intro t initOk rp ep o h
  cases h with
  | nullResult i e =>
    refine ⟨?_, ?_, ?_⟩
    · intro _ r hr; cases hr
    · intro _ hrp; cases hrp
    · intro _ hrp; cases hrp
  | initFail e =>
    refine ⟨?_, ?_, ?_⟩
    · intro _ r hr; cases hr; exact ⟨rfl, rfl⟩
    · intro hi; cases hi
    · intro hi; cases hi
  | noL2 e h0 =>
    refine ⟨?_, fun _ _ _ => rfl, fun _ _ _ => rfl⟩
    intro _ r hr; cases hr; exact ⟨rfl, rfl⟩
  | noCandidates e h0 hc =>
    refine ⟨?_, fun _ _ _ => rfl, fun _ _ _ => rfl⟩
    intro _ r hr; cases hr; exact ⟨rfl, rfl⟩
  | success e sorted h0 hc hq =>
    refine ⟨?_, fun _ _ h1 => absurd h1 h0, fun _ _ h1 => absurd h1 hc⟩
    intro hst; cases hst

/-- C8 witness: the theorem applied to the empty topology, on which the
selector reports "no L2 caches found" with count 0. -/
theorem claim_C8_witness :
    (oEmpty.status = .error → ∀ r, oEmpty.result = some r → r.count = 0 ∧ r.ids = []) ∧
    (true = true → true = true → tEmpty.l2_caches.length = 0 → oEmpty.status = .error) ∧
    (true = true → true = true → collectCandidates tEmpty = [] → oEmpty.status = .error) :=
  claim_C8 tEmpty true true true oEmpty (.noL2 true rfl)

end SpeedReaderCpuInfo

namespace SpeedReaderOrt

/-
Embedding of src/native/speedreader_ort.c, the revision matching the header
src/Src/Native/speedreader_ort/speedreader_ort.h: two status codes
(`SPEEDREADER_ORT_OK` / `SPEEDREADER_ORT_ERROR`), a raw `char*` error buffer
of `SPEEDREADER_ORT_ERROR_BUF_SIZE = 256` bytes, and an exact-match output
data contract.  The ONNX Runtime C API is an external collaborator; each
call the wrapper makes is modelled as a field of an oracle record holding
that call's response.
-/

/-- Status codes of the src/Src/Native revision. -/
inductive OrtCStatus where
  | ok
  | error
deriving DecidableEq

/-- Record `SpeedReaderOrtSessionOptions`. -/
structure SpeedReaderOrtSessionOptions where
  intra_op_num_threads : Int
  inter_op_num_threads : Int
  enable_profiling : Int
deriving DecidableEq

/-- Function `write_error` in speedreader_ort.c (lines 39-49): copies the message
truncated to 255 characters plus a NUL; a NULL error pointer (or NULL
message) is a safe no-op.  Result models the error buffer contents
(`none` = no buffer supplied). -/
def write_error (errPresent : Bool) (msg : String) : Option String :=
  if errPresent then some (msg.take 255) else none

/-- The `snprintf(error, SPEEDREADER_ORT_ERROR_BUF_SIZE, ...)` calls at
lines 313 and 345 of speedreader_ort.c: unlike `write_error`, they do not
check `error` for NULL; `snprintf(NULL, 256, ...)` is undefined behavior.
The Bool result records whether the call faulted. -/
def snprintf_error (errPresent : Bool) (msg : String) : Option String × Bool :=
  if errPresent then (some (msg.take 255), false) else (none, true)

/-- Responses of the ONNX Runtime engine to the calls
`speedreader_ort_create_session` makes, in call order.  `mallocSession`
models whether the wrapper `malloc` succeeds. -/
structure SessionEngine where
  createSessionOptions : Except String Unit
  setIntraOpNumThreads : Except String Unit
  setInterOpNumThreads : Except String Unit
  enableProfiling : Except String Unit
  mallocSession : Bool
  createSessionFromArray : Except String Unit

/-- Observable outcome of one `speedreader_ort_create_session` call:
status, whether the caller's `session` out-parameter was written, whether
the `OrtSessionOptions` object was created and released, whether the
session wrapper was malloc'd and freed, and the error buffer contents. -/
structure CreateSessionResult where
  status : OrtCStatus
  sessionWritten : Bool
  optionsCreated : Bool
  optionsReleased : Bool
  wrapperAllocated : Bool
  wrapperFreed : Bool
  err : Option String
deriving DecidableEq

/-- Operation `speedreader_ort_create_session` (speedreader_ort.c lines 116-194),
step by step: NULL-parameter validation, options creation, intra/inter
thread configuration, optional profiling enablement, wrapper allocation,
and session parsing, releasing every intermediate object on each failure
path. -/
def speedreader_ort_create_session
    (envPresent modelPresent optionsPresent sessionOutPresent : Bool)
    (options : SpeedReaderOrtSessionOptions) (eng : SessionEngine)
    (errPresent : Bool) : CreateSessionResult :=
  if ¬envPresent ∨ ¬modelPresent ∨ ¬optionsPresent ∨ ¬sessionOutPresent then
    ⟨.error, false, false, false, false, false,
      write_error errPresent "invalid argument: NULL parameter"⟩
  else
    match eng.createSessionOptions with
    | .error msg =>
      ⟨.error, false, false, false, false, false, write_error errPresent msg⟩
    | .ok _ =>
      match eng.setIntraOpNumThreads with
      | .error msg =>
        ⟨.error, false, true, true, false, false, write_error errPresent msg⟩
      | .ok _ =>
        match eng.setInterOpNumThreads with
        | .error msg =>
          ⟨.error, false, true, true, false, false, write_error errPresent msg⟩
        | .ok _ =>
          match (if options.enable_profiling ≠ 0 then eng.enableProfiling
                 else Except.ok ()) with
          | .error msg =>
            ⟨.error, false, true, true, false, false, write_error errPresent msg⟩
          | .ok _ =>
            if ¬eng.mallocSession then
              ⟨.error, false, true, true, false, false,
                write_error errPresent "failed to allocate session"⟩
            else
              match eng.createSessionFromArray with
              | .error msg =>
                ⟨.error, false, true, true, true, true, write_error errPresent msg⟩
              | .ok _ =>
                ⟨.ok, true, true, true, true, false, write_error errPresent ""⟩

/-- C7: whenever `speedreader_ort_create_session` fails at any step, every
intermediate native object created before the failing step is released
(options object released whenever created, wrapper freed whenever
allocated), the error status is returned, and the caller's session
out-parameter is never written; conversely the out-parameter is written
exactly on the Ok status (and on success too the options object is
released). -/
theorem claim_C7 :
    ∀ (envPresent modelPresent optionsPresent sessionOutPresent : Bool)
      (options : SpeedReaderOrtSessionOptions) (eng : SessionEngine)
      (errPresent : Bool) (r : CreateSessionResult),
      r = speedreader_ort_create_session envPresent modelPresent optionsPresent
        sessionOutPresent options eng errPresent →
      r.status = .error →
      (r.optionsCreated = true → r.optionsReleased = true) ∧
      (r.wrapperAllocated = true → r.wrapperFreed = true) ∧
      r.sessionWritten = false := by
  intro envPresent modelPresent optionsPresent sessionOutPresent options eng errPresent r hr
  subst hr
  unfold speedreader_ort_create_session
  repeat' split
  all_goals simp

/-- The concrete session-engine behavior in which parsing the model bytes
fails at `CreateSessionFromArray`. -/
def engBadModel : SessionEngine :=
  ⟨.ok (), .ok (), .ok (), .ok (), true, .error "bad model"⟩

/-- C7 witness: a concrete call in which the engine rejects the model bytes
at `CreateSessionFromArray`; the options object and the wrapper are both
released and no session handle is produced. -/
theorem claim_C7_witness :
    ((speedreader_ort_create_session true true true true ⟨1, 1, 0⟩
        engBadModel true).optionsCreated = true →
      (speedreader_ort_create_session true true true true ⟨1, 1, 0⟩
        engBadModel true).optionsReleased = true) ∧
    ((speedreader_ort_create_session true true true true ⟨1, 1, 0⟩
        engBadModel true).wrapperAllocated = true →
      (speedreader_ort_create_session true true true true ⟨1, 1, 0⟩
        engBadModel true).wrapperFreed = true) ∧
    (speedreader_ort_create_session true true true true ⟨1, 1, 0⟩
      engBadModel true).sessionWritten = false :=
  claim_C7 true true true true ⟨1, 1, 0⟩ engBadModel true _ rfl rfl

/-- Conversion of a signed 64-bit dimension to `size_t` as performed by the
C multiplication `input_element_count *= input_shape[i]` (value reduced
modulo 2^64). -/
def toSizeT (d : Int) : Nat := (d % (2 ^ 64 : Int)).toNat

/-- The input-element-count loop of `speedreader_ort_run`
(speedreader_ort.c lines 244-247): a `size_t` product over the signed
dimensions, every step reduced modulo 2^64. -/
def inputElementCount (input_shape : List Int) : Nat :=
  input_shape.foldl (fun acc d => (acc * toSizeT d) % 2 ^ 64) 1

/-- Computation `input_size_bytes = input_element_count * sizeof(float)` (line 248),
again in `size_t` arithmetic. -/
def inputSizeBytes (input_shape : List Int) : Nat :=
  (inputElementCount input_shape * 4) % 2 ^ 64

/-- Responses of the ONNX Runtime engine to the calls `speedreader_ort_run`
makes, in call order: memory-info creation, input-tensor creation (given
the computed byte size), the forward pass, output type/shape queries,
dimension count, dimensions, element count, and the output data pointer
(modelled as the tensor's element list). -/
structure RunEngine where
  createCpuMemoryInfo : Except String Unit
  createTensorWithData : Except String Unit
  run : Except String Unit
  getTensorTypeAndShape : Except String Unit
  getDimensionsCount : Except String Nat
  getDimensions : Except String (List Int)
  getTensorShapeElementCount : Except String Nat
  getTensorMutableData : Except String (List Nat)

/-- Observable outcome of one `speedreader_ort_run` call (src/Src/Native
revision): status, whether an unchecked `snprintf` into a NULL error buffer
was executed (undefined behavior in the C source, recorded as a fault),
the byte size passed to `CreateTensorWithDataAsOrtValue` (when reached),
and the caller-visible writes. -/
structure RunCResult where
  status : OrtCStatus
  faulted : Bool
  tensorByteSize : Option Nat
  shapeWritten : Option (List Int)
  ndimWritten : Option Nat
  dataWritten : Option (List Nat)
  err : Option String
deriving DecidableEq

/-- Operation `speedreader_ort_run` (speedreader_ort.c lines 210-365): NULL-parameter
validation, input size computation in `size_t` arithmetic, tensor creation,
forward pass, output introspection with the fixed maximum rank check
(`SPEEDREADER_ORT_MAX_SHAPE_DIMS = 16`), the exact output-count match
check, and the final copy.  The two `snprintf` diagnostic sites (lines
313 and 345) write through `error` without the NULL check that
`write_error` performs. -/
def speedreader_ort_run
    (sessionPresent inputDataPresent inputShapePresent : Bool)
    (outputDataPresent outputShapePresent outputNdimPresent : Bool)
    (input_shape : List Int) (output_count : Nat) (eng : RunEngine)
    (errPresent : Bool) : RunCResult :=
  if ¬sessionPresent ∨ ¬inputDataPresent ∨ ¬inputShapePresent ∨
      ¬outputDataPresent ∨ ¬outputShapePresent ∨ ¬outputNdimPresent then
    ⟨.error, false, none, none, none, none,
      write_error errPresent "invalid argument: NULL parameter"⟩
  else
    match eng.createCpuMemoryInfo with
    | .error msg => ⟨.error, false, none, none, none, none, write_error errPresent msg⟩
    | .ok _ =>
      match eng.createTensorWithData with
      | .error msg =>
        ⟨.error, false, some (inputSizeBytes input_shape), none, none, none,
          write_error errPresent msg⟩
      | .ok _ =>
        match eng.run with
        | .error msg =>
          ⟨.error, false, some (inputSizeBytes input_shape), none, none, none,
            write_error errPresent msg⟩
        | .ok _ =>
          match eng.getTensorTypeAndShape with
          | .error msg =>
            ⟨.error, false, some (inputSizeBytes input_shape), none, none, none,
              write_error errPresent msg⟩
          | .ok _ =>
            match eng.getDimensionsCount with
            | .error msg =>
              ⟨.error, false, some (inputSizeBytes input_shape), none, none, none,
                write_error errPresent msg⟩
            | .ok num_dims =>
              if 16 < num_dims then
                let w := snprintf_error errPresent
                  ("output has " ++ toString num_dims ++
                   " dimensions, max supported is 16")
                ⟨.error, w.2, some (inputSizeBytes input_shape), none, none, none, w.1⟩
              else
                match eng.getDimensions with
                | .error msg =>
                  ⟨.error, false, some (inputSizeBytes input_shape), none, none, none,
                    write_error errPresent msg⟩
                | .ok dims =>
                  match eng.getTensorShapeElementCount with
                  | .error msg =>
                    ⟨.error, false, some (inputSizeBytes input_shape), some dims,
                      some num_dims, none, write_error errPresent msg⟩
                  | .ok output_element_count =>
                    if output_element_count ≠ output_count then
                      let w := snprintf_error errPresent
                        ("output size mismatch: expected " ++ toString output_count ++
                         ", got " ++ toString output_element_count)
                      ⟨.error, w.2, some (inputSizeBytes input_shape), some dims,
                        some num_dims, none, w.1⟩
                    else
                      match eng.getTensorMutableData with
                      | .error msg =>
                        ⟨.error, false, some (inputSizeBytes input_shape), some dims,
                          some num_dims, none, write_error errPresent msg⟩
                      | .ok data =>
                        ⟨.ok, false, some (inputSizeBytes input_shape), some dims,
                          some num_dims, some (data.take output_element_count),
                          write_error errPresent ""⟩

/-- An engine behavior whose forward pass yields a 17-dimensional output
tensor (every call succeeds). -/
def engRank17 : RunEngine :=
  ⟨.ok (), .ok (), .ok (), .ok (), .ok 17, .ok [], .ok 0, .ok []⟩

/-- C4, code evaluated at the failing input: calling `speedreader_ort_run`
with a NULL error parameter and an engine output of 17 dimensions reaches
the `snprintf(error, SPEEDREADER_ORT_ERROR_BUF_SIZE, ...)` at line 313 with
a NULL destination — undefined behavior (a fault), contradicting the
header's "Caller may pass NULL for error" contract that `write_error`
honors.  With a non-NULL error buffer the same call does not fault and
returns the same status. -/
theorem claim_C4 :
    (speedreader_ort_run true true true true true true [1] 0 engRank17 false).faulted
      = true ∧
    (speedreader_ort_run true true true true true true [1] 0 engRank17 true).faulted
      = false ∧
    (speedreader_ort_run true true true true true true [1] 0 engRank17 true).status
      = (speedreader_ort_run true true true true true true [1] 0 engRank17 false).status := by
  refine ⟨rfl, rfl, rfl⟩

/-- An engine behavior in which input-tensor creation fails; the byte size
the wrapper computed is still the one handed to the engine. -/
def engTensorReject : RunEngine :=
  ⟨.ok (), .error "tensor rejected", .ok (), .ok (), .ok 0, .ok [], .ok 0, .ok []⟩

/-- C10: `speedreader_ort_run` never validates the sign of the input
dimensions.  For the concrete shape [-1, 4] the byte size handed to
`CreateTensorWithDataAsOrtValue` is the `size_t`-wrapped value of
(-1)·4·sizeof(float) — i.e. 2^64 - 16, larger than 2^63 — instead of any
rejection of the call (the size is recorded, so the engine call was
reached, past all validation). -/
theorem claim_C10 :
    (speedreader_ort_run true true true true true true [-1, 4] 0 engTensorReject
        true).tensorByteSize = some ((((-1 : Int) * 4 * 4) % 2 ^ 64).toNat) ∧
    (((-1 : Int) * 4 * 4) % 2 ^ 64).toNat = 2 ^ 64 - 16 ∧
    2 ^ 63 < (((-1 : Int) * 4 * 4) % 2 ^ 64).toNat := by
  refine ⟨by decide, by decide, by decide⟩

end SpeedReaderOrt

namespace SpeedReaderOrtBuffered

/-
The capacity/length buffer revision of the ONNX Runtime wrapper.  Its
boundary is declared in src/native/speedreader_ort.h (status codes OK /
UNKNOWN / INVALID_ARGUMENT / TRUNCATED, `SpeedReaderOrtFloatBuf` /
`SpeedReaderOrtInt64Buf` / `SpeedReaderOrtStringBuf` capacity+length
buffers) and exercised by src/native/smoke_test.c, but the implementing .c
file is not in the tree; the `run` operation below is therefore modelled
from the specification (§4.3 steps 1-9 and §4.1).
-/

/-- Status codes of src/native/speedreader_ort.h:
`SPEEDREADER_ORT_OK`, `SPEEDREADER_ORT_UNKNOWN`,
`SPEEDREADER_ORT_INVALID_ARGUMENT`, `SPEEDREADER_ORT_TRUNCATED`. -/
inductive OrtStatus where
  | ok
  | unknown
  | invalidArgument
  | truncated
deriving DecidableEq

/-- Caller side of a capacity/length output buffer: whether its data
pointer is present, and its capacity in elements (the `length` field is
meaningless before the call returns). -/
structure OutBuf where
  dataPresent : Bool
  capacity : Nat
deriving DecidableEq

/-- The engine's output tensor as observed through shape/element-count/data
introspection: its dimensions and its element data (the element count the
engine reports is the length of `data`). -/
structure OutTensor where
  dims : List Int
  data : List Nat
deriving DecidableEq

/-- Outcome of the single forward pass: an engine failure message, or an
output tensor. -/
inductive EngineRun where
  | fail (msg : String)
  | ok (t : OutTensor)
deriving DecidableEq

/-- Arguments of one buffered `run` call: presence of the session, input
data and input shape pointers, the two output buffers, the optional error
buffer, and the engine's behavior for this call. -/
structure RunArgs where
  sessionPresent : Bool
  inputDataPresent : Bool
  inputShapePresent : Bool
  outputData : OutBuf
  outputShape : OutBuf
  errPresent : Bool
  engine : EngineRun
deriving DecidableEq

/-- Observable outcome of one buffered `run` call: the status, whether any
engine call was made, the elements written to the output data buffer and
its `length` field after the call (`none` = left unchanged), likewise for
the output shape buffer, and the error buffer contents. -/
structure RunResult where
  status : OrtStatus
  engineCalled : Bool
  dataWritten : List Nat
  dataLength : Option Nat
  shapeWritten : List Int
  shapeLength : Option Nat
  errMsg : Option String
deriving DecidableEq

/-- Modelled from the spec (§4.3 step 1): the argument validation of the
buffered `run` — required pointers present, and every output buffer with
nonzero capacity has a present data pointer. -/
def buffersValid (a : RunArgs) : Bool :=
  a.sessionPresent && a.inputDataPresent && a.inputShapePresent &&
  (a.outputData.capacity == 0 || a.outputData.dataPresent) &&
  (a.outputShape.capacity == 0 || a.outputShape.dataPresent)

/-- Modelled from the spec: the buffered-revision `speedreader_ort_run`
declared in src/native/speedreader_ort.h, whose implementation is missing
from the tree.  Follows §4.3 steps 1-9: validate (InvalidArgument, no
engine call); run the forward pass (engine failure maps to the generic
error status with the engine's message); reject output rank over 16 with a
distinct error; if the shape buffer capacity is under the dimension count,
return Truncated with the shape buffer's length set to the dimension count
and write nothing; otherwise write the shape; if the data buffer capacity
is under the element count, return Truncated with the data buffer's length
set to the element count, copying no data while the shape result stays
valid; otherwise copy the data and set length to the element count. -/
def speedreader_ort_run (a : RunArgs) : RunResult :=
  if buffersValid a = false then
    ⟨.invalidArgument, false, [], none, [], none,
      if a.errPresent then some "invalid argument: NULL parameter" else none⟩
  else
    match a.engine with
    | .fail msg =>
      ⟨.unknown, true, [], none, [], none,
        if a.errPresent then some msg else none⟩
    | .ok t =>
      if 16 < t.dims.length then
        ⟨.unknown, true, [], none, [], none,
          if a.errPresent then some "output rank too large" else none⟩
      else if a.outputShape.capacity < t.dims.length then
        ⟨.truncated, true, [], none, [], some t.dims.length,
          if a.errPresent then some "" else none⟩
      else if a.outputData.capacity < t.data.length then
        ⟨.truncated, true, [], some t.data.length, t.dims, some t.dims.length,
          if a.errPresent then some "" else none⟩
      else
        ⟨.ok, true, t.data, some t.data.length, t.dims, some t.dims.length,
          if a.errPresent then some "" else none⟩

/-- C1: in a buffered `run` call that reaches the output-data step (valid
arguments, engine success, rank within 16, shape buffer large enough), a
data buffer capacity below the output element count yields Truncated with
the data buffer's length set to exactly the required element count and no
data written; with sufficient capacity the call succeeds and the length
equals the number of elements written, which is the element count and at
most the capacity. -/
theorem claim_C1 (a : RunArgs) (t : OutTensor)
    (hv : buffersValid a = true) (he : a.engine = .ok t)
    (hr : t.dims.length ≤ 16) (hs : t.dims.length ≤ a.outputShape.capacity) :
    (a.outputData.capacity < t.data.length →
      (speedreader_ort_run a).status = .truncated ∧
      (speedreader_ort_run a).dataLength = some t.data.length ∧
      (speedreader_ort_run a).dataWritten = []) ∧
    (t.data.length ≤ a.outputData.capacity →
      (speedreader_ort_run a).status = .ok ∧
      (speedreader_ort_run a).dataLength =
        some (speedreader_ort_run a).dataWritten.length ∧
      (speedreader_ort_run a).dataWritten.length = t.data.length ∧
      (speedreader_ort_run a).dataWritten.length ≤ a.outputData.capacity) := by
  have hv' : ¬(buffersValid a = false) := by simp [hv]
  have hr' : ¬(16 < t.dims.length) := by omega
  have hs' : ¬(a.outputShape.capacity < t.dims.length) := by omega
  constructor
  · intro hd
    simp [speedreader_ort_run, hv', he, hr', hs', hd]
  · intro hd
    have hd' : ¬(a.outputData.capacity < t.data.length) := by omega
    simp [speedreader_ort_run, hv', he, hr', hs', hd']
    omega

/-- C1 witness: a concrete truncating call (capacity 2, element count 3)
and a concrete succeeding call via the same theorem's success arm. -/
theorem claim_C1_witness :
    ((⟨true, 2⟩ : OutBuf).capacity < ([5, 6, 7] : List Nat).length →
      (speedreader_ort_run ⟨true, true, true, ⟨true, 2⟩, ⟨true, 1⟩, true,
        .ok ⟨[3], [5, 6, 7]⟩⟩).status = .truncated ∧
      (speedreader_ort_run ⟨true, true, true, ⟨true, 2⟩, ⟨true, 1⟩, true,
        .ok ⟨[3], [5, 6, 7]⟩⟩).dataLength = some ([5, 6, 7] : List Nat).length ∧
      (speedreader_ort_run ⟨true, true, true, ⟨true, 2⟩, ⟨true, 1⟩, true,
        .ok ⟨[3], [5, 6, 7]⟩⟩).dataWritten = []) ∧
    (([5, 6, 7] : List Nat).length ≤ (⟨true, 2⟩ : OutBuf).capacity →
      (speedreader_ort_run ⟨true, true, true, ⟨true, 2⟩, ⟨true, 1⟩, true,
        .ok ⟨[3], [5, 6, 7]⟩⟩).status = .ok ∧
      (speedreader_ort_run ⟨true, true, true, ⟨true, 2⟩, ⟨true, 1⟩, true,
        .ok ⟨[3], [5, 6, 7]⟩⟩).dataLength =
        some (speedreader_ort_run ⟨true, true, true, ⟨true, 2⟩, ⟨true, 1⟩, true,
          .ok ⟨[3], [5, 6, 7]⟩⟩).dataWritten.length ∧
      (speedreader_ort_run ⟨true, true, true, ⟨true, 2⟩, ⟨true, 1⟩, true,
        .ok ⟨[3], [5, 6, 7]⟩⟩).dataWritten.length = ([5, 6, 7] : List Nat).length ∧
      (speedreader_ort_run ⟨true, true, true, ⟨true, 2⟩, ⟨true, 1⟩, true,
        .ok ⟨[3], [5, 6, 7]⟩⟩).dataWritten.length ≤ (⟨true, 2⟩ : OutBuf).capacity) :=
  claim_C1 ⟨true, true, true, ⟨true, 2⟩, ⟨true, 1⟩, true, .ok ⟨[3], [5, 6, 7]⟩⟩
    ⟨[3], [5, 6, 7]⟩ (by decide) rfl (by decide) (by decide)

/-- C5: in a buffered `run` call with valid arguments, engine success and
rank within 16, a shape buffer capacity below the dimension count yields
Truncated with the shape buffer's length set to the dimension count, no
shape data written, and no output-data copy attempted (data buffer
untouched, its length unchanged). -/
theorem claim_C5 (a : RunArgs) (t : OutTensor)
    (hv : buffersValid a = true) (he : a.engine = .ok t)
    (hr : t.dims.length ≤ 16) (hs : a.outputShape.capacity < t.dims.length) :
    (speedreader_ort_run a).status = .truncated ∧
    (speedreader_ort_run a).shapeLength = some t.dims.length ∧
    (speedreader_ort_run a).shapeWritten = [] ∧
    (speedreader_ort_run a).dataWritten = [] ∧
    (speedreader_ort_run a).dataLength = none := by
  have hv' : ¬(buffersValid a = false) := by simp [hv]
  have hr' : ¬(16 < t.dims.length) := by omega
  simp [speedreader_ort_run, hv', he, hr', hs]

/-- C5 witness: a 3-dimensional output against a shape buffer of
capacity 2. -/
theorem claim_C5_witness :
    (speedreader_ort_run ⟨true, true, true, ⟨true, 9⟩, ⟨true, 2⟩, true,
      .ok ⟨[1, 2, 3], [5]⟩⟩).status = .truncated ∧
    (speedreader_ort_run ⟨true, true, true, ⟨true, 9⟩, ⟨true, 2⟩, true,
      .ok ⟨[1, 2, 3], [5]⟩⟩).shapeLength = some ([1, 2, 3] : List Int).length ∧
    (speedreader_ort_run ⟨true, true, true, ⟨true, 9⟩, ⟨true, 2⟩, true,
      .ok ⟨[1, 2, 3], [5]⟩⟩).shapeWritten = [] ∧
    (speedreader_ort_run ⟨true, true, true, ⟨true, 9⟩, ⟨true, 2⟩, true,
      .ok ⟨[1, 2, 3], [5]⟩⟩).dataWritten = [] ∧
    (speedreader_ort_run ⟨true, true, true, ⟨true, 9⟩, ⟨true, 2⟩, true,
      .ok ⟨[1, 2, 3], [5]⟩⟩).dataLength = none :=
  claim_C5 ⟨true, true, true, ⟨true, 9⟩, ⟨true, 2⟩, true, .ok ⟨[1, 2, 3], [5]⟩⟩
    ⟨[1, 2, 3], [5]⟩ (by decide) rfl (by decide) (by decide)

/-- C6: a buffered `run` call that fails validation (an absent required
pointer, or an output buffer with nonzero capacity but no data pointer)
returns InvalidArgument with no engine call made and no caller-visible
state changed (nothing written, both length fields untouched). -/
theorem claim_C6 (a : RunArgs) (hv : buffersValid a = false) :
    (speedreader_ort_run a).status = .invalidArgument ∧
    (speedreader_ort_run a).engineCalled = false ∧
    (speedreader_ort_run a).dataWritten = [] ∧
    (speedreader_ort_run a).shapeWritten = [] ∧
    (speedreader_ort_run a).dataLength = none ∧
    (speedreader_ort_run a).shapeLength = none := by
  simp [speedreader_ort_run, hv]

/-- C6 witness: a call whose output data buffer claims capacity 4 with an
absent data pointer. -/
theorem claim_C6_witness :
    (speedreader_ort_run ⟨true, true, true, ⟨false, 4⟩, ⟨true, 2⟩, true,
      .ok ⟨[1], [0]⟩⟩).status = .invalidArgument ∧
    (speedreader_ort_run ⟨true, true, true, ⟨false, 4⟩, ⟨true, 2⟩, true,
      .ok ⟨[1], [0]⟩⟩).engineCalled = false ∧
    (speedreader_ort_run ⟨true, true, true, ⟨false, 4⟩, ⟨true, 2⟩, true,
      .ok ⟨[1], [0]⟩⟩).dataWritten = [] ∧
    (speedreader_ort_run ⟨true, true, true, ⟨false, 4⟩, ⟨true, 2⟩, true,
      .ok ⟨[1], [0]⟩⟩).shapeWritten = [] ∧
    (speedreader_ort_run ⟨true, true, true, ⟨false, 4⟩, ⟨true, 2⟩, true,
      .ok ⟨[1], [0]⟩⟩).dataLength = none ∧
    (speedreader_ort_run ⟨true, true, true, ⟨false, 4⟩, ⟨true, 2⟩, true,
      .ok ⟨[1], [0]⟩⟩).shapeLength = none :=
  claim_C6 ⟨true, true, true, ⟨false, 4⟩, ⟨true, 2⟩, true, .ok ⟨[1], [0]⟩⟩ (by decide)

/-- C9: a buffered `run` call whose output tensor has more than 16
dimensions returns the generic error status with a rank diagnostic — an
error distinguishable from (not equal to) the Truncated status, and not
success. -/
theorem claim_C9 (a : RunArgs) (t : OutTensor)
    (hv : buffersValid a = true) (he : a.engine = .ok t)
    (hr : 16 < t.dims.length) :
    (speedreader_ort_run a).status = .unknown ∧
    (speedreader_ort_run a).status ≠ .truncated ∧
    (speedreader_ort_run a).status ≠ .ok := by
  have hv' : ¬(buffersValid a = false) := by simp [hv]
  simp [speedreader_ort_run, hv', he, hr]

/-- C9 witness: a 17-dimensional output tensor. -/
theorem claim_C9_witness :
    (speedreader_ort_run ⟨true, true, true, ⟨true, 9⟩, ⟨true, 17⟩, true,
      .ok ⟨[1, 1, 1, 1, 1, 1, 1, 1, 1, 1, 1, 1, 1, 1, 1, 1, 1], [0]⟩⟩).status
      = .unknown ∧
    (speedreader_ort_run ⟨true, true, true, ⟨true, 9⟩, ⟨true, 17⟩, true,
      .ok ⟨[1, 1, 1, 1, 1, 1, 1, 1, 1, 1, 1, 1, 1, 1, 1, 1, 1], [0]⟩⟩).status
      ≠ .truncated ∧
    (speedreader_ort_run ⟨true, true, true, ⟨true, 9⟩, ⟨true, 17⟩, true,
      .ok ⟨[1, 1, 1, 1, 1, 1, 1, 1, 1, 1, 1, 1, 1, 1, 1, 1, 1], [0]⟩⟩).status
      ≠ .ok :=
  claim_C9 ⟨true, true, true, ⟨true, 9⟩, ⟨true, 17⟩, true,
      .ok ⟨[1, 1, 1, 1, 1, 1, 1, 1, 1, 1, 1, 1, 1, 1, 1, 1, 1], [0]⟩⟩
    ⟨[1, 1, 1, 1, 1, 1, 1, 1, 1, 1, 1, 1, 1, 1, 1, 1, 1], [0]⟩
    (by decide) rfl (by decide)

end SpeedReaderOrtBuffered
